import Mathlib

/-!
Verification of the `gt update` command (src/internal/cmd/update.go).

The Go code is a linear orchestration over external effects: git queries,
stdin, the filesystem and build subprocesses.  We embed it shallowly as a
deterministic function of an `UpdateEnv` oracle (the outcome of every
external call) and an explicit model filesystem `FS`, returning the
result of the command, the final filesystem, and a trace of observable events
(prints, subprocess invocations, filesystem mutations) in program order.
-/

/-- Contents of a file and permission bits (0o755 = 493). -/
structure FileData where
  data : List Nat
  perm : Nat
  deriving DecidableEq, Repr

/-- A model filesystem: the set of existing directories and regular files. -/
structure FS where
  dirs : List String
  files : List (String × FileData)
  deriving DecidableEq, Repr

/-- Look up the data of a file. -/
def FS.read (fs : FS) (p : String) : Option FileData :=
  (fs.files.find? (fun kv => kv.1 == p)).map (fun kv => kv.2)

/-- Create or overwrite a file. -/
def FS.set (fs : FS) (p : String) (fd : FileData) : FS :=
  { fs with files := (p, fd) :: fs.files.filter (fun kv => kv.1 != p) }

/-- Remove a file (a no-op when absent, as the caller ignores the error). -/
def FS.removeFile (fs : FS) (p : String) : FS :=
  { fs with files := fs.files.filter (fun kv => kv.1 != p) }

/-- Directory existence. -/
def FS.hasDir (fs : FS) (d : String) : Bool :=
  fs.dirs.contains d

/-- Does the first character list start with the second? -/
def charsStart : List Char → List Char → Bool
  | _, [] => true
  | [], _ :: _ => false
  | a :: as, b :: bs => a == b && charsStart as bs

/-- Does the first character list contain the second as a contiguous run? -/
def charsContain : List Char → List Char → Bool
  | [], pat => charsStart [] pat
  | a :: t, pat => charsStart (a :: t) pat || charsContain t pat

/-- Model of the Go function strings.Contains: substring containment. -/
def strContains (s sub : String) : Bool :=
  charsContain s.data sub.data

/-- The characters before the last slash of a path (none when there is no
    slash). -/
def dirChars : List Char → Option (List Char)
  | [] => none
  | c :: rest =>
    match dirChars rest with
    | some d => some (c :: d)
    | none => if c = '/' then some [] else none

/-- Model of the Go function filepath.Dir restricted to slash-separated relative or
    non-root absolute paths: everything before the last separator, "." when
    there is none (path cleaning is not modelled). -/
def filepathDir (p : String) : String :=
  match dirChars p.data with
  | some d => String.mk d
  | none => "."

/-- Model of the Go function filepath.Join for the cases used here (no path cleaning). -/
def filepathJoin (a b : String) : String :=
  if a = "" then b
  else if a.data.getLast? = some '/' then a ++ b
  else a ++ "/" ++ b

/-- Model of the Go function strings.TrimSpace: drop whitespace from both ends. -/
def goTrimSpace (s : String) : String :=
  String.mk (((s.data.dropWhile Char.isWhitespace).reverse.dropWhile
    Char.isWhitespace).reverse)

/-- Model of the Go function strings.ToLower (ASCII range, which is all the code
    compares against). -/
def goToLower (s : String) : String :=
  String.mk (s.data.map Char.toLower)

/-- Observable events of a run: prints, subprocess invocations and
    filesystem-mutating system calls, in program order. -/
inductive Event where
  | print (msg : String)
  | lookPathGo
  | prompt
  | execGitDescribe
  | execGitRevParse
  | execGoGenerate
  | execGoBuild (version commit : String)
  | execCodesign
  | statTmp (path : String)
  | mkdirAll (dir : String) (perm : Nat)
  | fsWrite (path : String)
  | fsRename (src dst : String)
  | fsRemove (path : String)
  deriving DecidableEq, Repr

/-- Events that create, modify or remove files (build subprocesses included,
    since go generate / go build / codesign write to disk). -/
def Event.isMutation : Event → Bool
  | .execGoGenerate => true
  | .execGoBuild _ _ => true
  | .execCodesign => true
  | .mkdirAll _ _ => true
  | .fsWrite _ => true
  | .fsRename _ _ => true
  | .fsRemove _ => true
  | _ => false

/-- The two build subprocesses (go generate, go build). -/
def Event.isBuildExec : Event → Bool
  | .execGoGenerate => true
  | .execGoBuild _ _ => true
  | _ => false

/-- Is every event of the trace a print? -/
def allPrints : List Event → Bool
  | [] => true
  | Event.print _ :: rest => allPrints rest
  | _ :: _ => false

/-- Does a file write occur in the trace? -/
def hasWrite : List Event → Bool
  | [] => false
  | Event.fsWrite _ :: _ => true
  | _ :: rest => hasWrite rest

/-- Every file write in the trace is preceded by some MkdirAll: scanning in
    order, the first write (if any) comes after the first MkdirAll. -/
def writesAfterMkdir : List Event → Bool
  | [] => true
  | Event.mkdirAll _ _ :: _ => true
  | Event.fsWrite _ :: _ => false
  | _ :: rest => writesAfterMkdir rest

/-- The staleness report produced by the external StalenessChecker
    (version.CheckStaleBinary); consumed, not owned, per the data model of the spec. -/
structure StaleInfo where
  error : Option String
  isStale : Bool
  binaryCommit : String
  repoCommit : String
  commitsBehind : Int
  deriving DecidableEq, Repr

/-- Build version information (the versionInfo struct of update.go). -/
structure VersionInfo where
  version : String
  commit : String
  buildTime : String
  deriving DecidableEq, Repr

/-- The oracle for every external interaction of one run: flag values, the
    outcome of each external query or subprocess, stdin, and injected
    filesystem failures.  `stdinResponse = none` models a failed/EOF Scanln,
    whose error the code ignores, leaving the response empty.
    `writeFail p = some part` models a failed os.WriteFile that left the
    bytes `part` behind; `buildOutput = none` models a build that exited 0
    without creating the artifact. -/
structure UpdateEnv where
  force : Bool
  dryRun : Bool
  repoRoot : Except String String
  staleInfo : StaleInfo
  execPath : Except String String
  evalSymlinks : String → Option String
  homeDir : Except String String
  goVersion : String
  goos : String
  goOnPath : Bool
  stdinResponse : Option String
  gitDescribe : Except String String
  gitRevParse : Except String String
  buildTime : String
  goGenerateOk : Bool
  goBuildOk : Bool
  buildOutput : Option (List Nat)
  mkdirFail : Bool
  writeFail : String → Option (List Nat)
  renameFail : String → String → Bool
  tempDir : String
  nowUnix : Nat

/-- Modelled from the spec: version.ShortCommit (external collaborator of the
    repository, not among the sources) — the "shortened commit hash" shown in
    status messages. -/
def shortCommit (c : String) : String :=
  c.take 7

/-- Model of os.WriteFile: fails when the parent directory is absent, or when
    the injected failure oracle says so (leaving the partially written bytes
    behind). -/
def osWriteFile (env : UpdateEnv) (fs : FS) (p : String) (data : List Nat)
    (perm : Nat) : Except String Unit × FS :=
  if fs.hasDir (filepathDir p) = false then
    (.error "open: no such file or directory", fs)
  else
    match env.writeFail p with
    | none => (.ok (), fs.set p ⟨data, perm⟩)
    | some part => (.error "write: injected failure", fs.set p ⟨part, perm⟩)

/-- Model of os.Rename: atomic — it either fully succeeds or leaves the
    filesystem unchanged. -/
def osRename (env : UpdateEnv) (fs : FS) (a b : String) :
    Except String Unit × FS :=
  if env.renameFail a b then (.error "rename: injected failure", fs)
  else
    match fs.read a with
    | none => (.error "rename: no such file or directory", fs)
    | some fd => (.ok (), (fs.removeFile a).set b fd)

/-- Shallow embedding of copyFile (update.go): read src, write dst+".new"
    with 0755, atomically rename it onto dst; on rename failure remove the
    temporary file (os.Remove, result ignored) before returning the error. -/
def copyFile (env : UpdateEnv) (fs : FS) (src dst : String) :
    Except String Unit × FS × List Event :=
  match fs.read src with
  | none => (.error "reading source: open: no such file or directory", fs, [])
  | some fd =>
    let tmpDst := dst ++ ".new"
    match osWriteFile env fs tmpDst fd.data 493 with
    | (.error e, fs1) =>
        (.error ("writing temp file: " ++ e), fs1, [Event.fsWrite tmpDst])
    | (.ok _, fs1) =>
      match osRename env fs1 tmpDst dst with
      | (.error e, fs2) =>
          (.error ("renaming temp file: " ++ e), fs2.removeFile tmpDst,
           [Event.fsWrite tmpDst, Event.fsRename tmpDst dst, Event.fsRemove tmpDst])
      | (.ok _, fs2) =>
          (.ok (), fs2, [Event.fsWrite tmpDst, Event.fsRename tmpDst dst])

/-- The fallback branch of determineInstallLocation: ~/.local/bin/gt, failing
    when the home directory cannot be determined. -/
def fallbackInstallLocation (env : UpdateEnv) : Except String String :=
  match env.homeDir with
  | .error e => .error ("getting home directory: " ++ e)
  | .ok home => .ok (filepathJoin home ".local/bin/gt")

/-- Shallow embedding of determineInstallLocation (update.go): the current
    executable path, symlink-resolved when resolution succeeds, unless it
    contains "/tmp" or "go-build"; otherwise ~/.local/bin/gt. -/
def determineInstallLocation (env : UpdateEnv) : Except String String :=
  match env.execPath with
  | .ok cur =>
    let res := match env.evalSymlinks cur with
      | some r => r
      | none => cur
    if !(strContains res "/tmp") && !(strContains res "go-build") then .ok res
    else fallbackInstallLocation env
  | .error _ => fallbackInstallLocation env

/-- Shallow embedding of getVersionInfo (update.go): git describe (fallback
    "dev" on failure), then git rev-parse HEAD (fatal on failure); outputs
    are whitespace-trimmed.  The two subprocess events are emitted by
    `buildPhase`, where the call sits. -/
def getVersionInfo (env : UpdateEnv) : Except String VersionInfo :=
  let ver := match env.gitDescribe with
    | .error _ => "dev"
    | .ok out => goTrimSpace out
  match env.gitRevParse with
  | .error e => .error ("getting commit hash: " ++ e)
  | .ok out => .ok ⟨ver, goTrimSpace out, env.buildTime⟩

/-- The install phase of runUpdate: MkdirAll on the parent directory of the destination, copyFile, optional codesigning on darwin (errors ignored), and
    the success report. -/
def installPhase (env : UpdateEnv) (fs : FS) (installPath tmpBinary : String)
    (vi : VersionInfo) : Except String Unit × FS × List Event :=
  let targetDir := filepathDir installPath
  let pre := [Event.print ("  • Installing to " ++ installPath ++ "..."),
              Event.mkdirAll targetDir 493]
  if env.mkdirFail then
    (.error "creating target directory: injected failure", fs, pre)
  else
    let fs1 : FS :=
      { fs with dirs := if fs.dirs.contains targetDir then fs.dirs
                        else targetDir :: fs.dirs }
    let cr := copyFile env fs1 tmpBinary installPath
    match cr.1 with
    | .error e => (.error ("installing binary: " ++ e), cr.2.1, pre ++ cr.2.2)
    | .ok _ =>
        let signEvs := if env.goos = "darwin" then
            [Event.print "  • Codesigning for macOS...", Event.execCodesign]
          else []
        (.ok (), cr.2.1,
         pre ++ cr.2.2 ++ signEvs ++
          [Event.print "\n✓ gt updated successfully!",
           Event.print ("\nInstalled: " ++ installPath),
           Event.print ("Version:   " ++ vi.version),
           Event.print ("Commit:    " ++ shortCommit vi.commit)])

/-- The build phase of runUpdate (everything after the confirmation): version
    info (git describe, git rev-parse), go generate, go build into a
    timestamped temporary binary, the artifact check, then the install phase.
    The temporary binary is removed on every exit path past its creation (the
    deferred os.Remove). -/
def buildPhase (env : UpdateEnv) (fs : FS) (repoRoot installPath : String) :
    Except String Unit × FS × List Event :=
  let pre := [Event.print "", Event.print "Building gt...",
              Event.execGitDescribe, Event.execGitRevParse]
  match getVersionInfo env with
  | .error e => (.error ("getting version info: " ++ e), fs, pre)
  | .ok vi =>
    let pre := pre ++ [Event.print "  • Running go generate...", Event.execGoGenerate]
    if env.goGenerateOk = false then
      (.error "go generate failed: injected failure", fs, pre)
    else
      let tmpBinary := filepathJoin env.tempDir ("gt-build-" ++ toString env.nowUnix)
      let pre := pre ++
        [Event.print "  • Building binary...", Event.execGoBuild vi.version vi.commit]
      if env.goBuildOk = false then
        (.error "go build failed: injected failure", fs.removeFile tmpBinary, pre)
      else
        let fs1 := match env.buildOutput with
          | some d => fs.set tmpBinary ⟨d, 493⟩
          | none => fs
        let pre := pre ++ [Event.statTmp tmpBinary]
        if (fs1.read tmpBinary).isNone then
          (.error ("build succeeded but binary not found at " ++ tmpBinary),
           fs1.removeFile tmpBinary, pre)
        else
          let ir := installPhase env fs1 installPath tmpBinary vi
          (ir.1, ir.2.1.removeFile tmpBinary, pre ++ ir.2.2)

/-- runUpdate after the staleness block: install-location resolution, build
    configuration report, go-on-PATH check, the dry-run early return, the
    confirmation prompt (Scanln errors ignored; response trimmed and
    lowercased; "n"/"no" aborts with success), then the build phase. -/
def afterStale (env : UpdateEnv) (fs : FS) (repoRoot : String) :
    Except String Unit × FS × List Event :=
  match determineInstallLocation env with
  | .error e => (.error ("determining install location: " ++ e), fs, [])
  | .ok installPath =>
    let evs := [Event.print "Build configuration:",
                Event.print ("  Source:  " ++ repoRoot),
                Event.print ("  Target:  " ++ installPath),
                Event.print ("  Go:      " ++ env.goVersion),
                Event.lookPathGo]
    if env.goOnPath = false then
      (.error "go command not found: executable file not found in PATH\n\nMake sure Go is installed and in your PATH",
       fs, evs)
    else if env.dryRun then
      let planEvs :=
        [Event.print "\nℹ Dry run mode - no changes will be made",
         Event.print "\nWould execute:",
         Event.print ("  1. Run go generate in " ++ repoRoot),
         Event.print "  2. Build binary with version info",
         Event.print ("  3. Install to " ++ installPath)] ++
        (if env.goos = "darwin" then [Event.print "  4. Codesign binary for macOS"]
         else [])
      (.ok (), fs, evs ++ planEvs)
    else if env.force = false then
      let evs2 := evs ++ [Event.print "\nContinue with rebuild? [Y/n] ", Event.prompt]
      let response := goToLower (goTrimSpace (env.stdinResponse.getD ""))
      if response = "n" ∨ response = "no" then
        (.ok (), fs, evs2 ++ [Event.print "Aborted."])
      else
        let br := buildPhase env fs repoRoot installPath
        (br.1, br.2.1, evs2 ++ br.2.2)
    else
      let br := buildPhase env fs repoRoot installPath
      (br.1, br.2.1, evs ++ br.2.2)

/-- The staleness-warning message of the stale branch (update.go lines
    68-74). -/
def staleMsg (info : StaleInfo) : String :=
  if info.commitsBehind > 0 then
    "Binary is " ++ toString info.commitsBehind ++ " commits behind (built from " ++
      shortCommit info.binaryCommit ++ ", repo at " ++ shortCommit info.repoCommit ++ ")"
  else
    "Binary is stale (built from " ++ shortCommit info.binaryCommit ++
      ", repo at " ++ shortCommit info.repoCommit ++ ")"

/-- The prints the staleness block contributes when the run continues past
    it: the up-to-date note plus a blank line (forced rebuild), the staleness
    warning, or nothing beyond the repository banner when the checker itself
    errored. -/
def staleEvents (env : UpdateEnv) (repoRoot : String) : List Event :=
  let info := env.staleInfo
  let found := Event.print ("🔍 Found gt repository at " ++ repoRoot ++ "\n")
  if info.error.isNone && !info.isStale then
    [found,
     Event.print ("✓ Binary is already up to date (" ++ shortCommit info.binaryCommit ++ ")"),
     Event.print ""]
  else if info.error.isNone && info.isStale then
    [found, Event.print ("⚠ " ++ staleMsg info ++ "\n")]
  else
    [found]

/-- Shallow embedding of runUpdate (update.go): repo location, the staleness
    block (early success return when up to date and not forced), then
    `afterStale`. -/
def runUpdate (env : UpdateEnv) (fs : FS) : Except String Unit × FS × List Event :=
  match env.repoRoot with
  | .error e =>
      (.error ("cannot locate gt source repository: " ++ e ++
        "\n\nMake sure you have the gastown repository cloned and set GT_ROOT if needed"),
       fs, [])
  | .ok repoRoot =>
    if env.staleInfo.error.isNone && !env.staleInfo.isStale && !env.force then
      (.ok (), fs,
       [Event.print ("🔍 Found gt repository at " ++ repoRoot ++ "\n"),
        Event.print ("✓ Binary is already up to date (" ++
          shortCommit env.staleInfo.binaryCommit ++ ")"),
        Event.print "\nUse --force to rebuild anyway"])
    else
      let ar := afterStale env fs repoRoot
      (ar.1, ar.2.1, staleEvents env repoRoot ++ ar.2.2)

/-- A concrete oracle for witnesses: a stale binary (3 commits behind), all
    external calls succeeding, no injected filesystem failures. -/
def baseEnv : UpdateEnv where
  force := false
  dryRun := false
  repoRoot := .ok "/repo"
  staleInfo :=
    { error := none, isStale := true, binaryCommit := "abc000f00"
      repoCommit := "abc123f00", commitsBehind := 3 }
  execPath := .ok "/home/u/.local/bin/gt"
  evalSymlinks := fun _ => none
  homeDir := .ok "/home/u"
  goVersion := "go1.22.1"
  goos := "linux"
  goOnPath := true
  stdinResponse := some "y"
  gitDescribe := .ok "v1.2.3\n"
  gitRevParse := .ok "abc123f00\n"
  buildTime := "2026-01-01T00:00:00Z"
  goGenerateOk := true
  goBuildOk := true
  buildOutput := some [7, 7, 7]
  mkdirFail := false
  writeFail := fun _ => none
  renameFail := fun _ _ => false
  tempDir := "/var/tmpdir"
  nowUnix := 1700000000

/-- A concrete filesystem for witnesses. -/
def baseFS : FS where
  dirs := ["/var/tmpdir", "/home/u/.local/bin"]
  files := []

/-- A concrete oracle whose executable path lies in a temp/build-cache location. -/
def envTmpExec : UpdateEnv := { baseEnv with execPath := .ok "/tmp/go-build42/gt" }


/-- A concrete oracle with an injected write failure on /d/gt.new leaving [9] behind. -/
def envWriteFail : UpdateEnv :=
  { baseEnv with writeFail := fun p => if p = "/d/gt.new" then some [9] else none }


/-- A concrete oracle with dry-run requested and a failing repository lookup. -/
def envDryRunNoRepo : UpdateEnv :=
  { baseEnv with dryRun := true, repoRoot := .error "no repo" }


/-- A concrete oracle with dry-run requested and all external calls succeeding. -/
def envDryRun : UpdateEnv := { baseEnv with dryRun := true }


/-- A concrete oracle whose confirmation response is " No ". -/
def envDecline : UpdateEnv := { baseEnv with stdinResponse := some " No " }


/-- A concrete oracle whose stdin read fails (response stays empty). -/
def envEofResponse : UpdateEnv := { baseEnv with stdinResponse := none }


/-- A concrete oracle where both git queries fail and confirmation is forced. -/
def envGitFail : UpdateEnv :=
  { baseEnv with force := true, gitDescribe := .error "fail1", gitRevParse := .error "fail2" }


/-- A concrete oracle whose staleness report is: no error, not stale. -/
def envUpToDate : UpdateEnv :=
  { baseEnv with staleInfo :=
    { error := none, isStale := false, binaryCommit := "abc000f00"
      repoCommit := "abc123f00", commitsBehind := 0 } }

/-- A concrete oracle whose staleness report is: no error, stale, zero
    commits behind. -/
def envStaleZero : UpdateEnv :=
  { baseEnv with staleInfo :=
    { error := none, isStale := true, binaryCommit := "abc000f00"
      repoCommit := "abc123f00", commitsBehind := 0 } }

/-- Does the trace contain a printed message having sub as a substring? -/
def hasPrintContaining (tr : List Event) (sub : String) : Bool :=
  tr.any fun e => match e with
    | Event.print m => strContains m sub
    | _ => false


/-- Filtering out entries of a different key does not change a lookup. -/
lemma find?_filter_ne (l : List (String × FileData)) (p q : String) (h : q ≠ p) :
    (l.filter (fun kv => kv.1 != p)).find? (fun kv => kv.1 == q) =
      l.find? (fun kv => kv.1 == q) := by
  induction l with
  | nil => rfl
  | cons kv rest ih =>
    by_cases hq : kv.1 = q
    · subst hq
      have hp : (kv.1 != p) = true := by simp [bne, h]
      simp [List.filter_cons, List.find?_cons, hp]
    · have hpq : (p == q) = false := by
        simp [beq_iff_eq]; exact fun hh => h hh.symm
      by_cases hp : kv.1 = p
      · simp [List.filter_cons, List.find?_cons, hp, hq, hpq, ih]
      · simp [List.filter_cons, List.find?_cons, hp, hq, hpq, ih]


/-- Reading after a write: the written file, or the old filesystem elsewhere. -/
lemma FS.read_set (fs : FS) (p q : String) (fd : FileData) :
    (fs.set p fd).read q = if q = p then some fd else fs.read q := by
  unfold FS.set FS.read
  by_cases h : q = p
  · subst h; simp
  · simp only [if_neg h]
    have hpq : (p == q) = false := by simp [beq_iff_eq]; exact fun hh => h hh.symm
    simp [List.find?_cons, hpq, find?_filter_ne fs.files p q h]


/-- Reading after a removal: gone at the removed path, unchanged elsewhere. -/
lemma FS.read_removeFile (fs : FS) (p q : String) :
    (fs.removeFile p).read q = if q = p then none else fs.read q := by
  unfold FS.removeFile FS.read
  by_cases h : q = p
  · subst h
    simp only [if_pos rfl]
    induction fs.files with
    | nil => rfl
    | cons kv rest ih =>
      by_cases hp : kv.1 = q
      · simp [List.filter_cons, hp, ih]
      · simp [List.filter_cons, List.find?_cons, hp, ih]
  · simp [if_neg h, find?_filter_ne fs.files p q h]


/-- A path with the ".new" suffix differs from the path itself. -/
lemma append_new_ne (dst : String) : ¬ (dst ++ ".new" = dst) := by
  intro h
  have h2 := congrArg String.length h
  rw [String.length_append] at h2
  have h3 : (".new" : String).length = 4 := rfl
  omega


/-- A predicate true on prints holds on every event of an all-prints trace. -/
lemma all_of_allPrints (l : List Event) (p : Event → Bool)
    (hl : allPrints l = true) (hp : ∀ m, p (Event.print m) = true) :
    l.all p = true := by
  induction l with
  | nil => rfl
  | cons e rest ih => cases e <;> simp_all [allPrints, List.all_cons]


/-- An all-prints trace contains no file write. -/
lemma hasWrite_of_allPrints (l : List Event) (hl : allPrints l = true) :
    hasWrite l = false := by
  induction l with
  | nil => rfl
  | cons e rest ih => cases e <;> simp_all [allPrints, hasWrite]


/-- A non-print event does not occur in an all-prints trace. -/
lemma not_mem_of_allPrints (l : List Event) (e : Event)
    (hl : allPrints l = true) (he : ∀ m, e ≠ Event.print m) : e ∉ l := by
  induction l with
  | nil => simp
  | cons x rest ih =>
    cases x <;> simp_all [allPrints, List.mem_cons]


/-- The staleness block only prints. -/
lemma allPrints_staleEvents (env : UpdateEnv) (r : String) :
    allPrints (staleEvents env r) = true := by
  simp only [staleEvents]
  split_ifs <;> simp [allPrints]


/-- Prepending a write-free trace preserves the writes-after-MkdirAll property. -/
lemma wam_append (l1 l2 : List Event) (h1 : hasWrite l1 = false)
    (h2 : writesAfterMkdir l2 = true) : writesAfterMkdir (l1 ++ l2) = true := by
  induction l1 with
  | nil => simpa
  | cons e rest ih => cases e <;> simp_all [hasWrite, writesAfterMkdir]


/-- In the install phase, the first write comes after the MkdirAll. -/
lemma wam_installPhase (env : UpdateEnv) (fs : FS) (ip tmp : String)
    (vi : VersionInfo) :
    writesAfterMkdir (installPhase env fs ip tmp vi).2.2 = true := by
  unfold installPhase
  dsimp only
  repeat' split
  all_goals simp [writesAfterMkdir]


/-- In the build phase, the first write comes after the MkdirAll. -/
lemma wam_buildPhase (env : UpdateEnv) (fs : FS) (r ip : String) :
    writesAfterMkdir (buildPhase env fs r ip).2.2 = true := by
  unfold buildPhase
  dsimp only
  repeat' split
  all_goals simp [writesAfterMkdir, wam_installPhase]


/-- After the staleness block, the first write comes after the MkdirAll. -/
lemma wam_afterStale (env : UpdateEnv) (fs : FS) (r : String) :
    writesAfterMkdir (afterStale env fs r).2.2 = true := by
  unfold afterStale
  dsimp only
  repeat' split
  all_goals simp [writesAfterMkdir, wam_buildPhase]


/-- The staleness block performs no mutation. -/
lemma staleEvents_noMutation (env : UpdateEnv) (r : String) :
    (staleEvents env r).all (fun e => !e.isMutation) = true :=
  all_of_allPrints _ _ (allPrints_staleEvents env r) (fun _ => rfl)


/-- The staleness block runs no build subprocess. -/
lemma staleEvents_noBuildExec (env : UpdateEnv) (r : String) :
    (staleEvents env r).all (fun e => !e.isBuildExec) = true :=
  all_of_allPrints _ _ (allPrints_staleEvents env r) (fun _ => rfl)


/-- The staleness block does not prompt. -/
lemma prompt_not_mem_staleEvents (env : UpdateEnv) (r : String) :
    Event.prompt ∉ staleEvents env r :=
  not_mem_of_allPrints _ _ (allPrints_staleEvents env r) (fun _ h => Event.noConfusion h)


/-- The build phase always runs git describe and git rev-parse. -/
lemma gitExec_mem_buildPhase (env : UpdateEnv) (fs : FS) (r ip : String) :
    Event.execGitDescribe ∈ (buildPhase env fs r ip).2.2 ∧
    Event.execGitRevParse ∈ (buildPhase env fs r ip).2.2 := by
  unfold buildPhase
  try dsimp only
  repeat' split
  all_goals simp


/-- When version info succeeds and go generate passes, go build runs with the extracted version and commit. -/
lemma goBuild_mem_buildPhase (env : UpdateEnv) (fs : FS) (r ip : String)
    (vi : VersionInfo) (hv : getVersionInfo env = .ok vi)
    (hgen : env.goGenerateOk = true) :
    Event.execGoBuild vi.version vi.commit ∈ (buildPhase env fs r ip).2.2 := by
  unfold buildPhase
  simp only [hv, hgen]
  try dsimp only
  repeat' split
  all_goals simp_all


/-- When git rev-parse fails, the build phase returns the commit-hash error, leaves the filesystem unchanged, and runs no build subprocess. -/
lemma buildPhase_versionFail (env : UpdateEnv) (fs : FS) (r ip : String)
    (ec : String) (hrev : env.gitRevParse = .error ec) :
    (buildPhase env fs r ip).1 =
      .error ("getting version info: " ++ ("getting commit hash: " ++ ec)) ∧
    (buildPhase env fs r ip).2.1 = fs ∧
    (buildPhase env fs r ip).2.2.all (fun e => !e.isBuildExec) = true := by
  have hv : getVersionInfo env = .error ("getting commit hash: " ++ ec) := by
    simp [getVersionInfo, hrev]
  unfold buildPhase
  simp only [hv]
  try dsimp only
  refine ⟨?_, ?_, ?_⟩
  · first | rfl | trivial
  · first | rfl | trivial
  · simp [Event.isBuildExec]


/-- Once the install location resolves, the build configuration report is printed. -/
lemma buildConfig_mem_afterStale (env : UpdateEnv) (fs : FS) (r ip : String)
    (hloc : determineInstallLocation env = .ok ip) :
    Event.print "Build configuration:" ∈ (afterStale env fs r).2.2 := by
  unfold afterStale
  simp only [hloc]
  try dsimp only
  repeat' split
  all_goals simp


/-- When the run reaches the build phase (repo found, not the up-to-date early return, install location resolved, go present, not a dry run, confirmation passed), runUpdate agrees with buildPhase up to a build-free event prefix. -/
lemma runUpdate_build_reduction (env : UpdateEnv) (fs : FS) (root ip : String)
    (hroot : env.repoRoot = .ok root)
    (hne : (env.staleInfo.error.isNone && !env.staleInfo.isStale && !env.force) = false)
    (hloc : determineInstallLocation env = .ok ip)
    (hgo : env.goOnPath = true)
    (hdry : env.dryRun = false)
    (hpass : env.force = true ∨
      ¬((goToLower (goTrimSpace (env.stdinResponse.getD "")) = "n") ∨
        (goToLower (goTrimSpace (env.stdinResponse.getD "")) = "no"))) :
    (runUpdate env fs).1 = (buildPhase env fs root ip).1 ∧
    (runUpdate env fs).2.1 = (buildPhase env fs root ip).2.1 ∧
    ∃ l1, (runUpdate env fs).2.2 = l1 ++ (buildPhase env fs root ip).2.2 ∧
      l1.all (fun e => !e.isBuildExec) = true := by
  cases hf : env.force with
  | true =>
    have hru : runUpdate env fs =
        ((buildPhase env fs root ip).1, (buildPhase env fs root ip).2.1,
         staleEvents env root ++
           ([Event.print "Build configuration:", Event.print ("  Source:  " ++ root),
             Event.print ("  Target:  " ++ ip), Event.print ("  Go:      " ++ env.goVersion),
             Event.lookPathGo] ++ (buildPhase env fs root ip).2.2)) := by
      simp [runUpdate, afterStale, hroot, hne, hloc, hgo, hdry, hf]
    rw [hru]
    refine ⟨rfl, rfl,
      staleEvents env root ++
        [Event.print "Build configuration:", Event.print ("  Source:  " ++ root),
         Event.print ("  Target:  " ++ ip), Event.print ("  Go:      " ++ env.goVersion),
         Event.lookPathGo], by simp, ?_⟩
    rw [List.all_append, staleEvents_noBuildExec]
    simp [Event.isBuildExec]
  | false =>
    rcases hpass with hT | hcond
    · rw [hf] at hT; exact absurd hT (by simp)
    · have hne2 : (env.staleInfo.error.isNone && !env.staleInfo.isStale) = false := by
        simpa [hf] using hne
      have hru : runUpdate env fs =
          ((buildPhase env fs root ip).1, (buildPhase env fs root ip).2.1,
           staleEvents env root ++
             ([Event.print "Build configuration:", Event.print ("  Source:  " ++ root),
               Event.print ("  Target:  " ++ ip), Event.print ("  Go:      " ++ env.goVersion),
               Event.lookPathGo, Event.print "\nContinue with rebuild? [Y/n] ",
               Event.prompt] ++ (buildPhase env fs root ip).2.2)) := by
        simp [runUpdate, afterStale, hroot, hne2, hloc, hgo, hdry, hf, hcond]
      rw [hru]
      refine ⟨rfl, rfl,
        staleEvents env root ++
          [Event.print "Build configuration:", Event.print ("  Source:  " ++ root),
           Event.print ("  Target:  " ++ ip), Event.print ("  Go:      " ++ env.goVersion),
           Event.lookPathGo, Event.print "\nContinue with rebuild? [Y/n] ",
           Event.prompt], by simp, ?_⟩
      rw [List.all_append, staleEvents_noBuildExec]
      simp [Event.isBuildExec]


/-- In dry-run mode, the post-staleness steps mutate nothing, never prompt, keep the filesystem, and succeed once the install location resolves and go is present. -/
lemma afterStale_dryRun (env : UpdateEnv) (fs : FS) (root : String)
    (hdry : env.dryRun = true) :
    (afterStale env fs root).2.2.all (fun e => !e.isMutation) = true ∧
    Event.prompt ∉ (afterStale env fs root).2.2 ∧
    (afterStale env fs root).2.1 = fs ∧
    (∀ ip, determineInstallLocation env = .ok ip → env.goOnPath = true →
      (afterStale env fs root).1 = .ok ()) := by
  unfold afterStale
  try dsimp only
  repeat' split
  all_goals refine ⟨by simp [Event.isMutation], by simp, rfl, ?_⟩
  all_goals intro ip hloc hgo
  all_goals simp_all


/-- Claim C1: copyFile reads all bytes of the source file, writes them to the sibling temporary file dst ++ ".new" with permission bits 0755 (493), and atomically renames it onto dst; if the rename fails, the temporary file is removed before the error is returned, so dst ++ ".new" does not exist after copyFile returns a rename error. -/
theorem copyFile_atomic_install (env : UpdateEnv) (fs : FS) (src dst : String)
    (fd : FileData)
    (hread : fs.read src = some fd)
    (hdir : fs.hasDir (filepathDir (dst ++ ".new")) = true)
    (hw : env.writeFail (dst ++ ".new") = none) :
    (env.renameFail (dst ++ ".new") dst = false →
      (copyFile env fs src dst).1 = .ok () ∧
      (copyFile env fs src dst).2.1.read dst = some ⟨fd.data, 493⟩ ∧
      (copyFile env fs src dst).2.1.read (dst ++ ".new") = none ∧
      (copyFile env fs src dst).2.2 =
        [Event.fsWrite (dst ++ ".new"), Event.fsRename (dst ++ ".new") dst]) ∧
    (env.renameFail (dst ++ ".new") dst = true →
      (copyFile env fs src dst).1 =
        .error "renaming temp file: rename: injected failure" ∧
      (copyFile env fs src dst).2.1.read (dst ++ ".new") = none ∧
      (copyFile env fs src dst).2.2 =
        [Event.fsWrite (dst ++ ".new"), Event.fsRename (dst ++ ".new") dst,
         Event.fsRemove (dst ++ ".new")]) := by
  constructor
  · intro hrn
    simp [copyFile, osWriteFile, osRename, hread, hdir, hw, hrn,
      FS.read_set, FS.read_removeFile, append_new_ne dst]
  · intro hrn
    simp [copyFile, osWriteFile, osRename, hread, hdir, hw, hrn,
      FS.read_set, FS.read_removeFile, append_new_ne dst]


/-- Witness for C1 at a concrete filesystem and paths. -/
theorem copyFile_atomic_install_witness :
    (copyFile baseEnv ⟨["/d"], [("/s", ⟨[9, 8], 420⟩)]⟩ "/s" "/d/gt").1 = .ok () ∧
    (copyFile baseEnv ⟨["/d"], [("/s", ⟨[9, 8], 420⟩)]⟩ "/s" "/d/gt").2.1.read "/d/gt" =
      some ⟨[9, 8], 493⟩ ∧
    (copyFile baseEnv ⟨["/d"], [("/s", ⟨[9, 8], 420⟩)]⟩ "/s" "/d/gt").2.1.read "/d/gt.new" =
      none := by
  have h := (copyFile_atomic_install baseEnv ⟨["/d"], [("/s", ⟨[9, 8], 420⟩)]⟩
    "/s" "/d/gt" ⟨[9, 8], 420⟩ (by decide) (by decide) rfl).1 rfl
  exact ⟨h.1, h.2.1, h.2.2.1⟩


/-- Counterexample for C2: copyFile itself does not create the parent directory of the destination — with the directory absent it fails with a write error and the directory list is unchanged. -/
theorem copyFile_absent_parent_dir_cex :
    (copyFile baseEnv ⟨[], [("/s", ⟨[1], 493⟩)]⟩ "/s" "/d/gt").1 =
      .error "writing temp file: open: no such file or directory" ∧
    (copyFile baseEnv ⟨[], [("/s", ⟨[1], 493⟩)]⟩ "/s" "/d/gt").2.1.dirs = [] ∧
    (copyFile baseEnv ⟨[], [("/s", ⟨[1], 493⟩)]⟩ "/s" "/d/gt").2.2 =
      [Event.fsWrite "/d/gt.new"] :=
  ⟨rfl, rfl, rfl⟩


/-- Claim C2 (amended): the parent directory is established not by copyFile but by runUpdate, whose MkdirAll precedes any temporary-file write: in every run, the first file write in the trace comes after the first MkdirAll. -/
theorem runUpdate_mkdir_before_write (env : UpdateEnv) (fs : FS) :
    writesAfterMkdir (runUpdate env fs).2.2 = true := by
  unfold runUpdate
  dsimp only
  repeat' split
  all_goals first
    | exact wam_append _ _
        (hasWrite_of_allPrints _ (allPrints_staleEvents env _))
        (wam_afterStale env fs _)
    | simp [writesAfterMkdir]


/-- Counterexample for C3: with dryRun=true and a failing repository lookup, runUpdate returns an error, so the claim that every dry run reports success is false. -/
theorem runUpdate_dryRun_error_cex :
    (runUpdate envDryRunNoRepo baseFS).1 =
      .error ("cannot locate gt source repository: no repo\n\nMake sure you have the gastown repository cloned and set GT_ROOT if needed") :=
  rfl


/-- Claim C3 (amended): with dryRun=true, runUpdate performs no mutating step, never reaches the confirmation prompt, and leaves the filesystem unchanged; it returns success provided the preceding non-mutating steps succeed (repository located, install location resolved, go on PATH). -/
theorem runUpdate_dryRun_no_sideEffects (env : UpdateEnv) (fs : FS)
    (hdry : env.dryRun = true) :
    (runUpdate env fs).2.2.all (fun e => !e.isMutation) = true ∧
    Event.prompt ∉ (runUpdate env fs).2.2 ∧
    (runUpdate env fs).2.1 = fs ∧
    (∀ root ip, env.repoRoot = .ok root → determineInstallLocation env = .ok ip →
      env.goOnPath = true → (runUpdate env fs).1 = .ok ()) := by
  cases hroot : env.repoRoot with
  | error e =>
    have hru : runUpdate env fs = (.error ("cannot locate gt source repository: " ++ e ++
        "\n\nMake sure you have the gastown repository cloned and set GT_ROOT if needed"),
        fs, []) := by
      simp [runUpdate, hroot]
    rw [hru]
    refine ⟨rfl, by simp, rfl, ?_⟩
    intro root ip h1 h2 h3
    exact absurd h1 (by simp)
  | ok root =>
    have hAS := afterStale_dryRun env fs root hdry
    by_cases hcond : (env.staleInfo.error.isNone && !env.staleInfo.isStale && !env.force) = true
    · have hru : runUpdate env fs = (.ok (), fs,
          [Event.print ("🔍 Found gt repository at " ++ root ++ "\n"),
           Event.print ("✓ Binary is already up to date (" ++
             shortCommit env.staleInfo.binaryCommit ++ ")"),
           Event.print "\nUse --force to rebuild anyway"]) := by
        simp [runUpdate, hroot, hcond]
      rw [hru]
      refine ⟨by simp [Event.isMutation], by simp, rfl, ?_⟩
      intro root' ip h1 h2 h3
      rfl
    · simp only [Bool.not_eq_true] at hcond
      have hru : runUpdate env fs = ((afterStale env fs root).1, (afterStale env fs root).2.1,
          staleEvents env root ++ (afterStale env fs root).2.2) := by
        simp [runUpdate, hroot, hcond]
      rw [hru]
      refine ⟨?_, ?_, hAS.2.2.1, ?_⟩
      · rw [List.all_append, staleEvents_noMutation, hAS.1]
        rfl
      · simp [List.mem_append, prompt_not_mem_staleEvents env root, hAS.2.1]
      · intro root' ip h1 h2 h3
        exact hAS.2.2.2 ip h2 h3


/-- Witness for C3 at a concrete oracle. -/
theorem runUpdate_dryRun_no_sideEffects_witness :
    (runUpdate envDryRun baseFS).2.1 = baseFS ∧
    (runUpdate envDryRun baseFS).1 = .ok () := by
  have h := runUpdate_dryRun_no_sideEffects envDryRun baseFS rfl
  exact ⟨h.2.2.1, h.2.2.2 "/repo" "/home/u/.local/bin/gt" rfl rfl rfl⟩


/-- Claim C4: with force=false, when the run reaches the prompt and the response trims and lowercases to "n" or "no", runUpdate returns success, changes nothing, runs no build subprocess, and prints Aborted. -/
theorem runUpdate_decline_aborts (env : UpdateEnv) (fs : FS) (root ip : String)
    (hroot : env.repoRoot = .ok root)
    (hforce : env.force = false)
    (hdry : env.dryRun = false)
    (hstale : (env.staleInfo.error.isNone && !env.staleInfo.isStale) = false)
    (hloc : determineInstallLocation env = .ok ip)
    (hgo : env.goOnPath = true)
    (hresp : goToLower (goTrimSpace (env.stdinResponse.getD "")) = "n" ∨
             goToLower (goTrimSpace (env.stdinResponse.getD "")) = "no") :
    (runUpdate env fs).1 = .ok () ∧
    (runUpdate env fs).2.1 = fs ∧
    (runUpdate env fs).2.2.all (fun e => !e.isMutation) = true ∧
    (runUpdate env fs).2.2.all (fun e => !e.isBuildExec) = true ∧
    Event.prompt ∈ (runUpdate env fs).2.2 ∧
    Event.print "Aborted." ∈ (runUpdate env fs).2.2 := by
  have hru : runUpdate env fs = (.ok (), fs,
      staleEvents env root ++
        [Event.print "Build configuration:", Event.print ("  Source:  " ++ root),
         Event.print ("  Target:  " ++ ip), Event.print ("  Go:      " ++ env.goVersion),
         Event.lookPathGo, Event.print "\nContinue with rebuild? [Y/n] ", Event.prompt,
         Event.print "Aborted."]) := by
    simp [runUpdate, afterStale, hroot, hstale, hloc, hgo, hdry, hforce, eq_true hresp]
  rw [hru]
  refine ⟨rfl, rfl, ?_, ?_, ?_, ?_⟩
  · rw [List.all_append, staleEvents_noMutation]
    simp [Event.isMutation]
  · rw [List.all_append, staleEvents_noBuildExec]
    simp [Event.isBuildExec]
  · simp
  · simp


/-- Witness for C4 with response " No ". -/
theorem runUpdate_decline_aborts_witness :
    (runUpdate envDecline baseFS).1 = .ok () ∧
    (runUpdate envDecline baseFS).2.1 = baseFS ∧
    Event.print "Aborted." ∈ (runUpdate envDecline baseFS).2.2 := by
  have h := runUpdate_decline_aborts envDecline baseFS "/repo" "/home/u/.local/bin/gt"
    rfl rfl rfl rfl rfl rfl (Or.inr (by decide))
  exact ⟨h.1, h.2.1, h.2.2.2.2.2⟩


/-- Claim C5: when the run reaches version extraction, a failing git describe makes the version fall back to "dev" (embedded in the go build invocation) while the run continues; a failing git rev-parse makes runUpdate return the fatal commit-hash error with no go generate and no go build invoked. -/
theorem runUpdate_versionInfo_handling (env : UpdateEnv) (fs : FS) (root ip : String)
    (hroot : env.repoRoot = .ok root)
    (hne : (env.staleInfo.error.isNone && !env.staleInfo.isStale && !env.force) = false)
    (hloc : determineInstallLocation env = .ok ip)
    (hgo : env.goOnPath = true)
    (hdry : env.dryRun = false)
    (hpass : env.force = true ∨
      ¬((goToLower (goTrimSpace (env.stdinResponse.getD "")) = "n") ∨
        (goToLower (goTrimSpace (env.stdinResponse.getD "")) = "no"))) :
    (∀ ed c, env.gitDescribe = .error ed → env.gitRevParse = .ok c →
       getVersionInfo env = .ok ⟨"dev", goTrimSpace c, env.buildTime⟩ ∧
       (env.goGenerateOk = true →
          Event.execGoBuild "dev" (goTrimSpace c) ∈ (runUpdate env fs).2.2)) ∧
    (∀ ec, env.gitRevParse = .error ec →
       (runUpdate env fs).1 =
         .error ("getting version info: " ++ ("getting commit hash: " ++ ec)) ∧
       (runUpdate env fs).2.2.all (fun e => !e.isBuildExec) = true) := by
  obtain ⟨hres, hfs, l1, hl1, hl1b⟩ :=
    runUpdate_build_reduction env fs root ip hroot hne hloc hgo hdry hpass
  constructor
  · intro ed c hdesc hrev
    have hv : getVersionInfo env = .ok ⟨"dev", goTrimSpace c, env.buildTime⟩ := by
      simp [getVersionInfo, hdesc, hrev]
    refine ⟨hv, fun hgen => ?_⟩
    have hmem := goBuild_mem_buildPhase env fs root ip _ hv hgen
    rw [hl1]
    exact List.mem_append_right _ hmem
  · intro ec hrev
    have hbp := buildPhase_versionFail env fs root ip ec hrev
    refine ⟨?_, ?_⟩
    · rw [hres, hbp.1]
    · rw [hl1, List.all_append, hl1b, hbp.2.2]
      rfl


/-- Witness for C5 with both git queries failing. -/
theorem runUpdate_versionInfo_handling_witness :
    (runUpdate envGitFail baseFS).1 =
      .error ("getting version info: " ++ ("getting commit hash: " ++ "fail2")) ∧
    (runUpdate envGitFail baseFS).2.2.all (fun e => !e.isBuildExec) = true :=
  (runUpdate_versionInfo_handling envGitFail baseFS "/repo" "/home/u/.local/bin/gt"
    rfl rfl rfl rfl rfl (Or.inl rfl)).2 "fail2" rfl


/-- Claim C6: when the resolved executable path contains "/tmp" or "go-build", determineInstallLocation never returns it: it falls back to the home path joined with .local/bin/gt, and errors exactly when the home directory cannot be determined. -/
theorem determineInstallLocation_avoids_ephemeral (env : UpdateEnv)
    (p res : String)
    (hexec : env.execPath = .ok p)
    (hres : (match env.evalSymlinks p with | some r => r | none => p) = res)
    (hmark : strContains res "/tmp" = true ∨ strContains res "go-build" = true) :
    determineInstallLocation env = fallbackInstallLocation env ∧
    (∀ h, env.homeDir = .ok h →
       determineInstallLocation env = .ok (filepathJoin h ".local/bin/gt")) ∧
    (∀ e, env.homeDir = .error e →
       determineInstallLocation env = .error ("getting home directory: " ++ e)) := by
  have hcond : (!(strContains res "/tmp") && !(strContains res "go-build")) = false := by
    rcases hmark with h | h <;> simp [h]
  have hmain : determineInstallLocation env = fallbackInstallLocation env := by
    unfold determineInstallLocation
    simp only [hexec]
    try dsimp only
    rw [hres, hcond]
    simp
  refine ⟨hmain, ?_, ?_⟩
  · intro h hh
    rw [hmain]
    simp [fallbackInstallLocation, hh]
  · intro e he
    rw [hmain]
    simp [fallbackInstallLocation, he]


/-- Witness for C6 at an executable path inside a go-build temp directory. -/
theorem determineInstallLocation_avoids_ephemeral_witness :
    determineInstallLocation envTmpExec = .ok (filepathJoin "/home/u" ".local/bin/gt") :=
  (determineInstallLocation_avoids_ephemeral envTmpExec "/tmp/go-build42/gt"
    "/tmp/go-build42/gt" rfl rfl (Or.inl (by decide))).2.1 "/home/u" rfl


/-- Claim C7: with a no-error, not-stale report, runUpdate prints the up-to-date message and, unless forced, returns success with exactly the three status prints (no rebuild, no mutation); with a checker error, the staleness block stays silent (only the repository banner is printed) and the run continues, reaching git describe once the later steps are reachable. -/
theorem runUpdate_staleCheck_handling (env : UpdateEnv) (fs : FS) (root : String)
    (hroot : env.repoRoot = .ok root) :
    ((env.staleInfo.error = none → env.staleInfo.isStale = false →
        Event.print ("✓ Binary is already up to date (" ++
          shortCommit env.staleInfo.binaryCommit ++ ")") ∈ (runUpdate env fs).2.2 ∧
        (env.force = false →
           runUpdate env fs = (.ok (), fs,
             [Event.print ("🔍 Found gt repository at " ++ root ++ "\n"),
              Event.print ("✓ Binary is already up to date (" ++
                shortCommit env.staleInfo.binaryCommit ++ ")"),
              Event.print "\nUse --force to rebuild anyway"]))) ∧
     (∀ err, env.staleInfo.error = some err →
        (runUpdate env fs).1 = (afterStale env fs root).1 ∧
        (runUpdate env fs).2.2 =
          Event.print ("🔍 Found gt repository at " ++ root ++ "\n") ::
            (afterStale env fs root).2.2 ∧
        (∀ ip, determineInstallLocation env = .ok ip → env.goOnPath = true →
           env.dryRun = false →
           (env.force = true ∨
             ¬((goToLower (goTrimSpace (env.stdinResponse.getD "")) = "n") ∨
               (goToLower (goTrimSpace (env.stdinResponse.getD "")) = "no"))) →
           Event.execGitDescribe ∈ (runUpdate env fs).2.2))) := by
  constructor
  · intro herr hstale
    constructor
    · cases hf : env.force with
      | false =>
        have hru : runUpdate env fs = (.ok (), fs,
            [Event.print ("🔍 Found gt repository at " ++ root ++ "\n"),
             Event.print ("✓ Binary is already up to date (" ++
               shortCommit env.staleInfo.binaryCommit ++ ")"),
             Event.print "\nUse --force to rebuild anyway"]) := by
          simp [runUpdate, hroot, herr, hstale, hf]
        rw [hru]
        simp
      | true =>
        have hru : runUpdate env fs = ((afterStale env fs root).1,
            (afterStale env fs root).2.1,
            staleEvents env root ++ (afterStale env fs root).2.2) := by
          simp [runUpdate, hroot, herr, hstale, hf]
        rw [hru]
        have hse : staleEvents env root =
            [Event.print ("🔍 Found gt repository at " ++ root ++ "\n"),
             Event.print ("✓ Binary is already up to date (" ++
               shortCommit env.staleInfo.binaryCommit ++ ")"),
             Event.print ""] := by
          simp [staleEvents, herr, hstale]
        rw [hse]
        simp
    · intro hf
      have hru : runUpdate env fs = (.ok (), fs,
          [Event.print ("🔍 Found gt repository at " ++ root ++ "\n"),
           Event.print ("✓ Binary is already up to date (" ++
             shortCommit env.staleInfo.binaryCommit ++ ")"),
           Event.print "\nUse --force to rebuild anyway"]) := by
        simp [runUpdate, hroot, herr, hstale, hf]
      exact hru
  · intro err herr
    have hse : staleEvents env root =
        [Event.print ("🔍 Found gt repository at " ++ root ++ "\n")] := by
      simp [staleEvents, herr]
    have hru : runUpdate env fs = ((afterStale env fs root).1,
        (afterStale env fs root).2.1,
        staleEvents env root ++ (afterStale env fs root).2.2) := by
      simp [runUpdate, hroot, herr]
    refine ⟨by rw [hru], ?_, ?_⟩
    · rw [hru, hse]
      simp
    · intro ip hloc hgo hdry hpass
      have hne : (env.staleInfo.error.isNone && !env.staleInfo.isStale && !env.force) = false := by
        simp [herr]
      obtain ⟨hres, hfs, l1, hl1, hl1b⟩ :=
        runUpdate_build_reduction env fs root ip hroot hne hloc hgo hdry hpass
      rw [hl1]
      exact List.mem_append_right _ (gitExec_mem_buildPhase env fs root ip).1


/-- Witness for C7 with an up-to-date report and force=false. -/
theorem runUpdate_staleCheck_handling_witness :
    (runUpdate envUpToDate baseFS).1 = .ok () ∧
    Event.print "✓ Binary is already up to date (abc000f)" ∈
      (runUpdate envUpToDate baseFS).2.2 := by
  have h := runUpdate_staleCheck_handling envUpToDate baseFS "/repo" rfl
  refine ⟨?_, (h.1 rfl rfl).1⟩
  rw [(h.1 rfl rfl).2 rfl]


/-- Counterexample for C8: a no-error, stale report with commitsBehind = 0
    makes runUpdate print the count-free "Binary is stale" warning, and no
    printed message of the run contains "commits behind", so the universal
    claim that the warning names the commitsBehind count is false. -/
theorem runUpdate_stale_zero_cex :
    Event.print "⚠ Binary is stale (built from abc000f, repo at abc123f)\n" ∈
      (runUpdate envStaleZero baseFS).2.2 ∧
    hasPrintContaining (runUpdate envStaleZero baseFS).2.2 "commits behind" = false := by
  constructor
  · decide
  · decide

/-- Claim C8 (amended): with a no-error, stale report, runUpdate prints a
    staleness warning and continues with the update (the build configuration
    report follows); the warning names the commitsBehind count when
    commitsBehind > 0, and otherwise is the count-free "Binary is stale"
    message. -/
theorem runUpdate_stale_warning (env : UpdateEnv) (fs : FS) (root ip : String)
    (hroot : env.repoRoot = .ok root)
    (herr : env.staleInfo.error = none)
    (hst : env.staleInfo.isStale = true)
    (hloc : determineInstallLocation env = .ok ip) :
    Event.print ("⚠ " ++ staleMsg env.staleInfo ++ "\n") ∈ (runUpdate env fs).2.2 ∧
    (env.staleInfo.commitsBehind > 0 →
      staleMsg env.staleInfo =
        "Binary is " ++ toString env.staleInfo.commitsBehind ++
          " commits behind (built from " ++ shortCommit env.staleInfo.binaryCommit ++
          ", repo at " ++ shortCommit env.staleInfo.repoCommit ++ ")") ∧
    (¬(env.staleInfo.commitsBehind > 0) →
      staleMsg env.staleInfo =
        "Binary is stale (built from " ++ shortCommit env.staleInfo.binaryCommit ++
          ", repo at " ++ shortCommit env.staleInfo.repoCommit ++ ")") ∧
    Event.print "Build configuration:" ∈ (runUpdate env fs).2.2 := by
  have hse : staleEvents env root =
      [Event.print ("🔍 Found gt repository at " ++ root ++ "\n"),
       Event.print ("⚠ " ++ staleMsg env.staleInfo ++ "\n")] := by
    simp [staleEvents, herr, hst, staleMsg]
  have hru : runUpdate env fs = ((afterStale env fs root).1,
      (afterStale env fs root).2.1,
      staleEvents env root ++ (afterStale env fs root).2.2) := by
    simp [runUpdate, hroot, herr, hst]
  refine ⟨?_, ?_, ?_, ?_⟩
  · rw [hru, hse]
    simp
  · intro hbehind
    simp [staleMsg, hbehind]
  · intro hbehind
    simp [staleMsg, hbehind]
  · rw [hru]
    exact List.mem_append_right _ (buildConfig_mem_afterStale env fs root ip hloc)

/-- Witness for C8 with a report 3 commits behind. -/
theorem runUpdate_stale_warning_witness :
    staleMsg baseEnv.staleInfo =
      "Binary is 3 commits behind (built from abc000f, repo at abc123f)" ∧
    Event.print ("⚠ " ++ staleMsg baseEnv.staleInfo ++ "\n") ∈
      (runUpdate baseEnv baseFS).2.2 := by
  have h := runUpdate_stale_warning baseEnv baseFS "/repo" "/home/u/.local/bin/gt"
    rfl rfl rfl rfl
  exact ⟨h.2.1 (by decide), h.1⟩


/-- Claim C9: with force=false, any response other than "n"/"no" after trimming and lowercasing — including the empty response left by a failed stdin read — lets the update proceed: the outcome is that of the build phase and both git queries are invoked. -/
theorem runUpdate_nonNo_proceeds (env : UpdateEnv) (fs : FS) (root ip : String)
    (hroot : env.repoRoot = .ok root)
    (hforce : env.force = false)
    (hdry : env.dryRun = false)
    (hstale : (env.staleInfo.error.isNone && !env.staleInfo.isStale) = false)
    (hloc : determineInstallLocation env = .ok ip)
    (hgo : env.goOnPath = true)
    (hresp : env.stdinResponse = none ∨ ∃ s, env.stdinResponse = some s ∧
       ¬(goToLower (goTrimSpace s) = "n" ∨ goToLower (goTrimSpace s) = "no")) :
    (runUpdate env fs).1 = (buildPhase env fs root ip).1 ∧
    Event.prompt ∈ (runUpdate env fs).2.2 ∧
    Event.execGitDescribe ∈ (runUpdate env fs).2.2 ∧
    Event.execGitRevParse ∈ (runUpdate env fs).2.2 := by
  have hcond : ¬((goToLower (goTrimSpace (env.stdinResponse.getD ""))) = "n" ∨
      (goToLower (goTrimSpace (env.stdinResponse.getD ""))) = "no") := by
    rcases hresp with h | ⟨s, hs, hn⟩
    · rw [h]; decide
    · rw [hs]; simpa using hn
  have hru : runUpdate env fs = ((buildPhase env fs root ip).1,
      (buildPhase env fs root ip).2.1,
      staleEvents env root ++
        ([Event.print "Build configuration:", Event.print ("  Source:  " ++ root),
          Event.print ("  Target:  " ++ ip), Event.print ("  Go:      " ++ env.goVersion),
          Event.lookPathGo, Event.print "\nContinue with rebuild? [Y/n] ",
          Event.prompt] ++ (buildPhase env fs root ip).2.2)) := by
    simp [runUpdate, afterStale, hroot, hstale, hloc, hgo, hdry, hforce, hcond]
  refine ⟨by rw [hru], ?_, ?_, ?_⟩
  · rw [hru]
    simp
  · rw [hru]
    refine List.mem_append_right _ (List.mem_append_right _ ?_)
    exact (gitExec_mem_buildPhase env fs root ip).1
  · rw [hru]
    refine List.mem_append_right _ (List.mem_append_right _ ?_)
    exact (gitExec_mem_buildPhase env fs root ip).2

/-- Witness for C9 with a failed stdin read. -/
theorem runUpdate_nonNo_proceeds_witness :
    Event.prompt ∈ (runUpdate envEofResponse baseFS).2.2 ∧
    Event.execGitDescribe ∈ (runUpdate envEofResponse baseFS).2.2 ∧
    Event.execGitRevParse ∈ (runUpdate envEofResponse baseFS).2.2 := by
  have h := runUpdate_nonNo_proceeds envEofResponse baseFS "/repo" "/home/u/.local/bin/gt"
    rfl rfl rfl rfl rfl rfl (Or.inl rfl)
  exact ⟨h.2.1, h.2.2.1, h.2.2.2⟩


/-- Claim C10: when writing dst ++ ".new" fails, copyFile returns the write error without attempting any removal — the trace holds only the write attempt — and the partially written temporary file remains. -/
theorem copyFile_write_error_no_cleanup (env : UpdateEnv) (fs : FS)
    (src dst : String) (fd : FileData) (part : List Nat)
    (hread : fs.read src = some fd)
    (hdir : fs.hasDir (filepathDir (dst ++ ".new")) = true)
    (hw : env.writeFail (dst ++ ".new") = some part) :
    (copyFile env fs src dst).1 =
      .error "writing temp file: write: injected failure" ∧
    (copyFile env fs src dst).2.1.read (dst ++ ".new") = some ⟨part, 493⟩ ∧
    (copyFile env fs src dst).2.2 = [Event.fsWrite (dst ++ ".new")] := by
  simp [copyFile, osWriteFile, hread, hdir, hw, FS.read_set]


/-- Witness for C10 with an injected write failure leaving one byte. -/
theorem copyFile_write_error_no_cleanup_witness :
    (copyFile envWriteFail ⟨["/d"], [("/s", ⟨[9, 8], 420⟩)]⟩ "/s" "/d/gt").1 =
      .error "writing temp file: write: injected failure" ∧
    (copyFile envWriteFail ⟨["/d"], [("/s", ⟨[9, 8], 420⟩)]⟩ "/s" "/d/gt").2.1.read "/d/gt.new" =
      some ⟨[9], 493⟩ ∧
    (copyFile envWriteFail ⟨["/d"], [("/s", ⟨[9, 8], 420⟩)]⟩ "/s" "/d/gt").2.2 =
      [Event.fsWrite "/d/gt.new"] := by
  have h := copyFile_write_error_no_cleanup envWriteFail
    ⟨["/d"], [("/s", ⟨[9, 8], 420⟩)]⟩ "/s" "/d/gt" ⟨[9, 8], 420⟩ [9]
    (by decide) (by decide) (by decide)
  exact h

